import Mathlib

/-!
# NarrativeRabbit — verification of the scoring engine and frontend data layer

Shallow embedding of the NarrativeRabbit repository:

* the frontend service layer (`frontend/src/services/api.ts`), the stories
  list page filter (`StoriesListPage`), the `StoryCard` component and the
  declared `Story` interface (`frontend/src/types/index.ts`) are translated
  from the TypeScript source;
* the backend analyzer engine (`backend/src/services/analysis/...`) is not
  part of the repository snapshot — only its documentation is — so those
  components are modelled from the specification, with the readiness weight
  vector taken from `AI_AGENT_IMPLEMENTATION_STATUS.md` (lines 106–112),
  the one place in the snapshot that records it.

Scores are embedded as exact rationals (`ℚ`); JavaScript values reaching the
frontend service layer are embedded as a small JSON value universe.
-/

namespace NarrativeRabbit

/-! ## JSON-like values and the axios boundary (`frontend/src/services/api.ts`) -/

/-- A JavaScript value as it reaches the service layer after axios parses the
response body: null, booleans, numbers, strings, arrays and objects. -/
inductive JVal : Type
  | null : JVal
  | jbool (b : Bool) : JVal
  | jnum (n : Int) : JVal
  | jstr (s : String) : JVal
  | jarr (elems : List JVal) : JVal
  | jobj (fields : List (String × JVal)) : JVal

/-- A transport / HTTP error thrown by axios and caught by the `catch` blocks. -/
structure JsError where
  message : String
deriving DecidableEq

/-- The test `Array.isArray(data)` from `searchStories`. -/
def isJsArray : JVal → Bool
  | JVal.jarr _ => true
  | _ => false

/-- The JavaScript test `!data || typeof data !== 'object'` from `getGraphData`
is false exactly for (truthy) objects and arrays: `typeof` of an array is
`'object'`, `null` is falsy, and every other `JVal` has a different `typeof`. -/
def isTruthyObject : JVal → Bool
  | JVal.jobj _ => true
  | JVal.jarr _ => true
  | _ => false

/-- JavaScript property access `v.k` on a parsed JSON value: a lookup on an
object, `undefined` (here `none`) on everything else. -/
def jsGet : JVal → String → Option JVal
  | JVal.jobj fields, key => fields.lookup key
  | _, _ => none

/-- The expression `Array.isArray(x) ? x : []` applied to a possibly-`undefined` property,
as in `getGraphData`'s validation of `data.nodes` and `data.links`. -/
def arrayOrEmpty : Option JVal → List JVal
  | some (JVal.jarr elems) => elems
  | _ => []

/-- The `GraphData` shape `{ nodes, links }` returned by `getGraphData`. -/
structure GraphDataR where
  nodes : List JVal
  links : List JVal

/-- Function `narrativeAPI.searchStories` (api.ts lines 54–81): on success returns
`Array.isArray(data) ? data : []`, and the `catch` block returns `[]`. -/
def searchStories : Except JsError JVal → List JVal
  | Except.error _ => []
  | Except.ok (JVal.jarr elems) => elems
  | Except.ok _ => []

/-- Function `narrativeAPI.getStory` (api.ts lines 83–91): returns the response data on
success; the `catch` block rethrows the error (`throw error`). -/
def getStory : Except JsError JVal → Except JsError JVal
  | Except.error e => Except.error e
  | Except.ok d => Except.ok d

/-- Function `narrativeAPI.getGraphData` (api.ts lines 125–173): the `catch` block
returns `{nodes: [], links: []}`; a non-object body returns
`{nodes: [], links: []}`; otherwise each field is kept only if it is an
array and replaced by `[]` otherwise. -/
def getGraphData : Except JsError JVal → GraphDataR
  | Except.error _ => { nodes := [], links := [] }
  | Except.ok d =>
    if isTruthyObject d then
      { nodes := arrayOrEmpty (jsGet d "nodes"), links := arrayOrEmpty (jsGet d "links") }
    else
      { nodes := [], links := [] }

/-- C8: `searchStories` and `getGraphData` never propagate an error — every
transport failure and every malformed body (non-array for `searchStories`,
non-object for `getGraphData`) maps to `[]` resp. `{nodes: [], links: []}`,
with both `getGraphData` fields always lists — while `getStory` rethrows the
underlying error on any failure. -/
theorem narrativeAPI_error_handling :
    (∀ e : JsError, searchStories (Except.error e) = []) ∧
    (∀ v : JVal, isJsArray v = false → searchStories (Except.ok v) = []) ∧
    (∀ e : JsError, getGraphData (Except.error e) = { nodes := [], links := [] }) ∧
    (∀ v : JVal, isTruthyObject v = false →
      getGraphData (Except.ok v) = { nodes := [], links := [] }) ∧
    (∀ e : JsError, getStory (Except.error e) = Except.error e) := by
  refine ⟨fun e => rfl, fun v hv => ?_, fun e => rfl, fun v hv => ?_, fun e => rfl⟩
  · cases v <;> simp_all [searchStories, isJsArray]
  · cases v <;> simp_all [getGraphData, isTruthyObject]

/-- Witness for C8: the guarded branches evaluated at concrete inputs. -/
theorem narrativeAPI_error_handling_witness :
    searchStories (Except.error ⟨"network down"⟩) = [] ∧
    searchStories (Except.ok (JVal.jnum 3)) = [] ∧
    getGraphData (Except.ok (JVal.jstr "oops")) = { nodes := [], links := [] } ∧
    getStory (Except.error ⟨"network down"⟩) = Except.error ⟨"network down"⟩ :=
  ⟨narrativeAPI_error_handling.1 ⟨"network down"⟩,
   narrativeAPI_error_handling.2.1 (JVal.jnum 3) rfl,
   narrativeAPI_error_handling.2.2.2.1 (JVal.jstr "oops") rfl,
   narrativeAPI_error_handling.2.2.2.2 ⟨"network down"⟩⟩

/-! ## Stories as the frontend sees them at runtime, and the declared `Story` type

`StoryRec` is the runtime record `StoriesListPage`, `StoryCard` and
`StoryDetailPage` actually read: every field those components access through
optional chaining is an `Option`. `StoryDecl` is the `Story` interface
declared in `frontend/src/types/index.ts` (lines 7–24), which has a singular
optional `group` and **no** `groups` field. -/

/-- A story record as the list/detail pages read it at runtime; fields read
through `?.` are optional, `undefined` is `none`. -/
structure StoryRec where
  id : String
  summary : Option String
  full_text : Option String
  type : String
  timestamp : Option String
  primary_themes : Option (List String)
  lessons : Option (List String)
  outcome : Option String
  groups : Option (List String)
  group : Option String
deriving DecidableEq

/-- The `Story` interface declared in `frontend/src/types/index.ts`
(lines 7–24): required `id`, `summary`, `type`, `timestamp`,
`primary_themes`, `lessons`, `outcome`; optional singular `group`; no
`groups` field. -/
structure StoryDecl where
  id : String
  summary : String
  full_text : Option String
  type : String
  timestamp : String
  primary_themes : List String
  secondary_themes : Option (List String)
  lessons : List String
  outcome : String
  department : Option String
  group : Option String
  protagonists : Option (List String)
  stakeholders : Option (List String)
  values_represented : Option (List String)
  key_quotes : Option (List String)
  source : Option String
deriving DecidableEq

/-- A value of the declared `Story` type seen as the runtime record the pages
read: every declared field is present, and the undeclared `groups` property
reads as `undefined` (`none`). -/
def StoryDecl.toRuntime (d : StoryDecl) : StoryRec :=
  { id := d.id
    summary := some d.summary
    full_text := d.full_text
    type := d.type
    timestamp := some d.timestamp
    primary_themes := some d.primary_themes
    lessons := some d.lessons
    outcome := some d.outcome
    groups := none
    group := d.group }

/-! ## The `StoriesListPage` client-side filter (src/unnamed/part_000, lines 326–392) -/

/-- The filter state `{search, themes, groups, types}` held by
`StoriesListPage`. -/
structure Filters where
  search : String
  themes : List String
  groups : List String
  types : List String
deriving DecidableEq

/-- The JavaScript `String.prototype.toLowerCase()`. -/
def jsToLower (s : String) : String := String.mk (s.data.map Char.toLower)

/-- Whether `needle` occurs as a contiguous run of `hay`, starting at the front. -/
def jsStartsWithChars : List Char → List Char → Bool
  | _, [] => true
  | [], _ :: _ => false
  | a :: hay, b :: needle => a == b && jsStartsWithChars hay needle

/-- Whether `needle` occurs as a contiguous run somewhere in `hay`. -/
def jsIncludesChars : List Char → List Char → Bool
  | [], needle => needle.isEmpty
  | a :: hay, needle => jsStartsWithChars (a :: hay) needle || jsIncludesChars hay needle

/-- The JavaScript `String.prototype.includes(needle)`. -/
def jsIncludes (hay needle : String) : Bool := jsIncludesChars hay.data needle.data

/-- The test `field?.toLowerCase().includes(searchLower)` on an optional string field:
`undefined` is falsy. -/
def optIncludesLower (field : Option String) (searchLower : String) : Bool :=
  (field.map (fun t => jsIncludes (jsToLower t) searchLower)).getD false

/-- The search disjunction from `StoriesListPage` (lines 362–365):
`story.summary?... || story.outcome?... || story.full_text?...`, each
lowercased and matched against the lowercased search string. -/
def matchesSearch (search : String) (s : StoryRec) : Bool :=
  optIncludesLower s.summary (jsToLower search) ||
  optIncludesLower s.outcome (jsToLower search) ||
  optIncludesLower s.full_text (jsToLower search)

/-- The filter predicate of `StoriesListPage.filteredStories`
(lines 358–391), with the early `return false` guards translated to a
nested conditional in source order: search, then type, then theme, then
group, then `return true`. -/
def passesFilters (f : Filters) (s : StoryRec) : Bool :=
  if f.search != "" && !matchesSearch f.search s then false
  else if decide (0 < f.types.length) && !(f.types.contains s.type) then false
  else if decide (0 < f.themes.length) &&
      !((s.primary_themes.map (fun ts => ts.any (fun th => f.themes.contains th))).getD false) then
    false
  else if decide (0 < f.groups.length) &&
      !((s.groups.map (fun gs => gs.any (fun g => f.groups.contains g))).getD false) then
    false
  else true

/-- Definition `filteredStories` from `StoriesListPage` (lines 355–392):
`stories.filter(story => ...)`. -/
def filteredStories (f : Filters) (stories : List StoryRec) : List StoryRec :=
  stories.filter (passesFilters f)

/-- Definition `availableGroups` from `StoriesListPage` (lines 337–352): the set of
group names collected by `story.groups?.forEach(group => groups.add(group))`
over all stories (presented here in first-appearance order; the page sorts
it before display, which does not affect emptiness). -/
def availableGroups (stories : List StoryRec) : List String :=
  ((stories.map (fun s => s.groups.getD [])).flatten).dedup

/-- The render condition of the Groups badge section in `StoryCard.tsx`
(line 53) and `StoryDetailPage` (line 616 of the same bundle):
`story.groups && story.groups.length > 0`. -/
def storyCardShowsGroups (s : StoryRec) : Bool :=
  (s.groups.map (fun gs => decide (0 < gs.length))).getD false

/-- A present text field whose lowercasing contains the lowercased search string. -/
def matchText (field : Option String) (search : String) : Bool :=
  match field with
  | some t => jsIncludes (jsToLower t) (jsToLower search)
  | none => false

/-- The filter predicate as the specification reads, one clean conjunct per
active filter: lowercased substring hit on summary/outcome/full text, story
type among the selected types, some primary theme among the selected themes,
some group among the selected groups. -/
def satisfiesFiltersSpec (f : Filters) (s : StoryRec) : Bool :=
  (f.search == "" ||
    matchText s.summary f.search || matchText s.outcome f.search ||
    matchText s.full_text f.search) &&
  (decide (f.types = []) || f.types.contains s.type) &&
  (decide (f.themes = []) || (s.primary_themes.getD []).any (fun th => f.themes.contains th)) &&
  (decide (f.groups = []) || (s.groups.getD []).any (fun g => f.groups.contains g))

theorem optIncludesLower_eq_matchText (field : Option String) (search : String) :
    optIncludesLower field (jsToLower search) = matchText field search := by
  cases field <;> rfl

theorem ite_false_else (c x : Bool) : (if c = true then false else x) = (!c && x) := by
  cases c <;> simp

theorem not_pos_length_eq_nil {α : Type} [DecidableEq α] (l : List α) :
    (!decide (0 < l.length)) = decide (l = []) := by
  cases l <;> simp

theorem optListAny_eq_getD {α : Type} (o : Option (List α)) (p : α → Bool) :
    (o.map (fun ts => ts.any p)).getD false = (o.getD []).any p := by
  cases o <;> rfl

theorem passesFilters_eq_spec (f : Filters) (s : StoryRec) :
    passesFilters f s = satisfiesFiltersSpec f s := by
  unfold passesFilters satisfiesFiltersSpec
  rw [ite_false_else, ite_false_else, ite_false_else, ite_false_else]
  rw [optListAny_eq_getD, optListAny_eq_getD]
  simp only [Bool.and_true, Bool.not_and, Bool.not_not, not_pos_length_eq_nil, bne,
    Bool.not_not]
  rw [show matchesSearch f.search s =
      (matchText s.summary f.search ||
       matchText s.outcome f.search ||
       matchText s.full_text f.search) by
    unfold matchesSearch
    rw [optIncludesLower_eq_matchText, optIncludesLower_eq_matchText,
      optIncludesLower_eq_matchText]]
  simp [Bool.or_assoc, Bool.and_assoc]

/-- C9: `filteredStories` is exactly the order-preserving sub-list of the
input stories satisfying all active filters — search hit on lowercased
summary/outcome/full text, story type among the selected types, some primary
theme among the selected themes, some group among the selected groups — and
with no active filters it returns the input list unchanged. -/
theorem filteredStories_spec (f : Filters) (stories : List StoryRec) :
    filteredStories f stories = stories.filter (satisfiesFiltersSpec f) ∧
    List.Sublist (filteredStories f stories) stories ∧
    filteredStories { search := "", themes := [], groups := [], types := [] } stories
      = stories := by
  refine ⟨?_, ?_, ?_⟩
  · exact List.filter_congr (fun s _ => passesFilters_eq_spec f s)
  · exact List.filter_sublist stories
  · refine List.filter_eq_self.mpr (fun s _ => ?_)
    rfl

/-- C10: for stories of the declared `Story` type — which has no `groups`
field — the group-filter clause can never pass: any active group filter
empties `filteredStories`, `availableGroups` is always empty, and the Groups
badge section of `StoryCard` / `StoryDetailPage` never renders. -/
theorem declared_story_groups_never_match :
    (∀ (d : StoryDecl) (f : Filters), f.groups ≠ [] →
      passesFilters f d.toRuntime = false) ∧
    (∀ (ds : List StoryDecl) (f : Filters), f.groups ≠ [] →
      filteredStories f (ds.map StoryDecl.toRuntime) = []) ∧
    (∀ ds : List StoryDecl, availableGroups (ds.map StoryDecl.toRuntime) = []) ∧
    (∀ d : StoryDecl, storyCardShowsGroups d.toRuntime = false) := by
  have hpass : ∀ (d : StoryDecl) (f : Filters), f.groups ≠ [] →
      passesFilters f d.toRuntime = false := by
    intro d f hf
    rw [passesFilters_eq_spec]
    unfold satisfiesFiltersSpec
    simp [StoryDecl.toRuntime, hf]
  refine ⟨hpass, ?_, ?_, ?_⟩
  · intro ds f hf
    unfold filteredStories
    refine List.filter_eq_nil_iff.mpr (fun s hs => ?_)
    obtain ⟨d, _, rfl⟩ := List.mem_map.mp hs
    simp [hpass d f hf]
  · intro ds
    unfold availableGroups
    simp [StoryDecl.toRuntime]
  · intro d
    rfl

/-- Witness for C10: a concrete declared story and an active group filter. -/
theorem declared_story_groups_never_match_witness :
    passesFilters { search := "", themes := [], groups := ["engineering"], types := [] }
      (StoryDecl.toRuntime
        { id := "s1", summary := "a pilot", full_text := none, type := "success",
          timestamp := "2024-01-01", primary_themes := ["ai"], secondary_themes := none,
          lessons := [], outcome := "ok", department := none, group := some "engineering",
          protagonists := none, stakeholders := none, values_represented := none,
          key_quotes := none, source := none }) = false :=
  declared_story_groups_never_match.1
    { id := "s1", summary := "a pilot", full_text := none, type := "success",
      timestamp := "2024-01-01", primary_themes := ["ai"], secondary_themes := none,
      lessons := [], outcome := "ok", department := none, group := some "engineering",
      protagonists := none, stakeholders := none, values_represented := none,
      key_quotes := none, source := none }
    { search := "", themes := [], groups := ["engineering"], types := [] }
    (by simp)

/-! ## AdoptionReadinessScorer

`backend/src/services/analysis/adoption_readiness_scorer.py` is not part of
the repository snapshot; the scorer is modelled from the specification, with
the weight vector taken from `AI_AGENT_IMPLEMENTATION_STATUS.md`
(lines 106–112), the only record of it inside the snapshot. -/

/-- Modelled from the spec: defensive clamping of an aggregate into [0,1]
(§7 Range violation); the backend analyzer sources are not in the snapshot. -/
def clamp01 (x : ℚ) : ℚ := max 0 (min 1 x)

/-- The readiness dimension weights recorded in
`AI_AGENT_IMPLEMENTATION_STATUS.md` lines 106–112: narrative alignment 20%,
cultural receptivity 20%, trust levels 20%, learning orientation 15%,
leadership coherence 15%, coordination narrative 10%. -/
def readinessWeights : List ℚ := [1/5, 1/5, 1/5, 3/20, 3/20, 1/10]

/-- The weight vector as the specification's §4.5 sentence lists it
(narrative alignment 0.20, cultural receptivity 0.20, trust foundation 0.15,
learning orientation 0.15, leadership coherence 0.15, coordination 0.15),
kept separately to compare against the repository's own record. -/
def specSentenceWeights : List ℚ := [1/5, 1/5, 3/20, 3/20, 3/20, 3/20]

/-- The weighted sum Σ(dimension score × weight). -/
def weightedSum (weights scores : List ℚ) : ℚ := (List.zipWith (· * ·) weights scores).sum

/-- Modelled from the spec: `overall_readiness` = Σ(dimension_score × weight),
clamped into [0,1] as §7 requires of every weighted-sum aggregate; the
scorer source is not in the snapshot. -/
def overall_readiness (dimension_scores : List ℚ) : ℚ :=
  clamp01 (weightedSum readinessWeights dimension_scores)

/-- Counterexample for C1: the weight vector the claim lists (trust 0.15,
coordination 0.15) is inconsistent with the claimed exact result — it yields
0.57 on the test scores, while `overall_readiness`, with the weights the
repository records (trust 0.20, coordination 0.10), yields exactly 0.585. -/
theorem overall_readiness_claimed_weights_counterexample :
    weightedSum specSentenceWeights [4/5, 7/10, 3/5, 1/2, 2/5, 3/10] = 57/100 ∧
    overall_readiness [4/5, 7/10, 3/5, 1/2, 2/5, 3/10] = 117/200 ∧
    (57/100 : ℚ) ≠ 117/200 := by
  refine ⟨?_, ?_, by norm_num⟩
  · norm_num [weightedSum, specSentenceWeights]
  · norm_num [overall_readiness, clamp01, weightedSum, readinessWeights]

/-- C1 as amended: for six dimension scores in [0,1], `overall_readiness`
equals Σ(dimension_score × weight) with weights narrative_alignment 0.20,
cultural_receptivity 0.20, trust 0.20, learning_orientation 0.15,
leadership_coherence 0.15, coordination 0.10; on the dimension scores
[0.8, 0.7, 0.6, 0.5, 0.4, 0.3] it equals exactly 0.585. -/
theorem overall_readiness_eq_weighted_sum (scores : List ℚ)
    (hlen : scores.length = 6) (hbounds : ∀ x ∈ scores, 0 ≤ x ∧ x ≤ 1) :
    overall_readiness scores = weightedSum readinessWeights scores ∧
    overall_readiness [4/5, 7/10, 3/5, 1/2, 2/5, 3/10] = 117/200 := by
  constructor
  · match scores, hlen with
    | [a, b, c, d, e, f], _ =>
      obtain ⟨⟨ha0, ha1⟩, ⟨hb0, hb1⟩, ⟨hc0, hc1⟩, ⟨hd0, hd1⟩, ⟨he0, he1⟩, ⟨hf0, hf1⟩, -⟩ :
          _ ∧ _ ∧ _ ∧ _ ∧ _ ∧ _ ∧ True := by
        simp only [List.forall_mem_cons, List.forall_mem_nil] at hbounds
        exact ⟨hbounds.1, hbounds.2.1, hbounds.2.2.1, hbounds.2.2.2.1,
          hbounds.2.2.2.2.1, hbounds.2.2.2.2.2.1, trivial⟩
      show clamp01 (weightedSum readinessWeights [a, b, c, d, e, f]) = _
      have hval : weightedSum readinessWeights [a, b, c, d, e, f] =
          a/5 + b/5 + c/5 + 3*d/20 + 3*e/20 + f/10 := by
        simp [weightedSum, readinessWeights]
        ring
      rw [clamp01, hval]
      rw [min_eq_right (by linarith), max_eq_right (by linarith)]
  · norm_num [overall_readiness, clamp01, weightedSum, readinessWeights]

/-- Witness for C1's amended theorem at the test scores. -/
theorem overall_readiness_eq_weighted_sum_witness :
    overall_readiness [4/5, 7/10, 3/5, 1/2, 2/5, 3/10] =
      weightedSum readinessWeights [4/5, 7/10, 3/5, 1/2, 2/5, 3/10] :=
  (overall_readiness_eq_weighted_sum [4/5, 7/10, 3/5, 1/2, 2/5, 3/10]
    (by norm_num) (by norm_num)).1

/-- C3: the readiness weight vector used by the scorer sums to exactly 1, in
exact rational arithmetic. -/
theorem readinessWeights_sum_eq_one : readinessWeights.sum = 1 := by
  norm_num [readinessWeights]

/-! ## Trajectory forecast -/

/-- Time-series trend classification over sentiment buckets. -/
inductive Trend : Type
  | positive : Trend
  | negative : Trend
  | flat : Trend
deriving DecidableEq

/-- The trajectory forecast labels. -/
inductive Forecast : Type
  | accelerating : Forecast
  | stalling : Forecast
  | uncertain : Forecast
deriving DecidableEq

/-- Modelled from the spec: the trajectory forecast rules of §4.5, read in
rule order — trend positive with cultural receptivity above 0.6 gives
`accelerating`; failing that, trend negative or trust foundation below 0.4
gives `stalling`; everything else gives `uncertain`.
`adoption_readiness_scorer.py` is not in the snapshot. -/
def forecast_adoption_trajectory (trend : Trend)
    (cultural_receptivity trust_foundation : ℚ) : Forecast :=
  if trend = Trend.positive ∧ 3/5 < cultural_receptivity then Forecast.accelerating
  else if trend = Trend.negative ∨ trust_foundation < 2/5 then Forecast.stalling
  else Forecast.uncertain

/-- C2: the forecast is a pure total function of trend, cultural receptivity
and trust foundation into {accelerating, stalling, uncertain}: positive trend
with receptivity above 0.6 accelerates; a negative trend always stalls, as
does trust below 0.4 whenever the accelerating rule does not fire; every
remaining input is uncertain; and the spec scenario (negative trend, trust
0.3, receptivity 0.8) stalls — the trust/trend rule dominating receptivity. -/
theorem forecast_adoption_trajectory_rules :
    (∀ cr tf : ℚ, 3/5 < cr →
      forecast_adoption_trajectory Trend.positive cr tf = Forecast.accelerating) ∧
    (∀ cr tf : ℚ,
      forecast_adoption_trajectory Trend.negative cr tf = Forecast.stalling) ∧
    (∀ (t : Trend) (cr tf : ℚ), tf < 2/5 → ¬(t = Trend.positive ∧ 3/5 < cr) →
      forecast_adoption_trajectory t cr tf = Forecast.stalling) ∧
    (∀ (t : Trend) (cr tf : ℚ), ¬(t = Trend.positive ∧ 3/5 < cr) →
      t ≠ Trend.negative → ¬(tf < 2/5) →
      forecast_adoption_trajectory t cr tf = Forecast.uncertain) ∧
    forecast_adoption_trajectory Trend.negative (4/5) (3/10) = Forecast.stalling := by
  refine ⟨?_, ?_, ?_, ?_, by decide⟩
  · intro cr tf hcr
    simp [forecast_adoption_trajectory, hcr]
  · intro cr tf
    rw [forecast_adoption_trajectory, if_neg (by rintro ⟨h, -⟩; cases h),
      if_pos (Or.inl rfl)]
  · intro t cr tf htf hnot
    rw [forecast_adoption_trajectory, if_neg hnot, if_pos (Or.inr htf)]
  · intro t cr tf hnot hneg htf
    rw [forecast_adoption_trajectory, if_neg hnot, if_neg ?_]
    rintro (h | h)
    · exact hneg h
    · exact htf h

/-- Witness for C2: each forecast rule fired at a concrete input. -/
theorem forecast_adoption_trajectory_rules_witness :
    forecast_adoption_trajectory Trend.positive (7/10) (1/2) = Forecast.accelerating ∧
    forecast_adoption_trajectory Trend.negative (4/5) (3/10) = Forecast.stalling ∧
    forecast_adoption_trajectory Trend.flat (1/2) (3/10) = Forecast.stalling ∧
    forecast_adoption_trajectory Trend.flat (1/2) (1/2) = Forecast.uncertain :=
  ⟨forecast_adoption_trajectory_rules.1 (7/10) (1/2) (by norm_num),
   forecast_adoption_trajectory_rules.2.1 (4/5) (3/10),
   forecast_adoption_trajectory_rules.2.2.1 Trend.flat (1/2) (3/10) (by norm_num)
     (by simp),
   forecast_adoption_trajectory_rules.2.2.2.1 Trend.flat (1/2) (1/2) (by simp)
     (by simp) (by norm_num)⟩

/-! ## NarrativeGapAnalyzer: vocabulary gap -/

/-- Modelled from the spec: the vocabulary gap of §4.1 — extract the
concept-term sets of the official and actual stories, and return
1 − |intersection| / |union|, defined as 0 when the union is empty.
`narrative_gap_analyzer.py` is not in the snapshot. -/
def compare_vocabulary (official actual : Finset String) : ℚ :=
  if (official ∪ actual).card = 0 then 0
  else 1 - ((official ∩ actual).card : ℚ) / ((official ∪ actual).card : ℚ)

/-- C6: the vocabulary gap equals 1 − |intersection|/|union| of the two
concept-term sets, is defined as 0 (not a division error) when the union is
empty, and always lies in [0,1]. -/
theorem compare_vocabulary_spec (official actual : Finset String) :
    (official ∪ actual ≠ ∅ → compare_vocabulary official actual =
      1 - ((official ∩ actual).card : ℚ) / ((official ∪ actual).card : ℚ)) ∧
    (official ∪ actual = ∅ → compare_vocabulary official actual = 0) ∧
    0 ≤ compare_vocabulary official actual ∧ compare_vocabulary official actual ≤ 1 := by
  refine ⟨?_, ?_, ?_, ?_⟩
  · intro hne
    rw [compare_vocabulary, if_neg (by simpa [Finset.card_eq_zero] using hne)]
  · intro he
    rw [compare_vocabulary, if_pos (by simp [he])]
  · rw [compare_vocabulary]
    split
    · exact le_refl 0
    · rename_i hcard
      have hpos : (0 : ℚ) < ((official ∪ actual).card : ℚ) := by
        exact_mod_cast Nat.pos_of_ne_zero hcard
      have hle : ((official ∩ actual).card : ℚ) ≤ ((official ∪ actual).card : ℚ) := by
        exact_mod_cast Finset.card_le_card (Finset.inter_subset_union)
      have := (div_le_one hpos).mpr hle
      linarith
  · rw [compare_vocabulary]
    split
    · norm_num
    · have h0 : (0 : ℚ) ≤ ((official ∩ actual).card : ℚ) := by positivity
      have hpos : (0 : ℚ) < ((official ∪ actual).card : ℚ) := by
        rename_i hcard
        exact_mod_cast Nat.pos_of_ne_zero hcard
      have := div_nonneg h0 (le_of_lt hpos)
      linarith

/-- Witness for C6: the gap of {"ai"} against an empty actual set is 1, and
the empty-against-empty gap is the neutral default 0. -/
theorem compare_vocabulary_spec_witness :
    compare_vocabulary {"ai"} ∅ = 1 ∧ compare_vocabulary ∅ ∅ = 0 := by
  constructor
  · have h := (compare_vocabulary_spec {"ai"} ∅).1 (by decide)
    rw [h]
    norm_num
  · exact (compare_vocabulary_spec ∅ ∅).2.1 rfl

/-! ## Backend data model (spec §3) and analyzer scoring kernels

The analyzer sources are not in the snapshot; the scoring kernels below are
modelled from §4 and §7 of the specification. -/

/-- The interpretive lens a story applies to the initiative. -/
inductive AgencyFrame : Type
  | opportunity : AgencyFrame
  | threat : AgencyFrame
  | tool : AgencyFrame
  | partner : AgencyFrame
  | replacement : AgencyFrame
deriving DecidableEq

/-- The narrative function of a story. -/
inductive NarrativeFunction : Type
  | vision : NarrativeFunction
  | success : NarrativeFunction
  | warning : NarrativeFunction
  | complication : NarrativeFunction
deriving DecidableEq

/-- Modelled from the spec: a backend story record (§3 data model) as the
analyzers read it from GraphDataPort. -/
structure BStory where
  id : String
  summary : String
  groups : List String
  sentiment : ℚ
  agency_frame : AgencyFrame
  narrative_function : NarrativeFunction
  concepts_mentioned : List String
  experimentation_indicator : Bool
  timestamp : ℕ
deriving DecidableEq

/-- Modelled from the spec: the ratio-style score
`positive_count / (positive_count + negative_count)` with the neutral
default 0.5 when no markers match either side (§4.3, §7 InsufficientData). -/
def ratio_score (positives negatives : ℕ) : ℚ :=
  if positives + negatives = 0 then 1/2
  else (positives : ℚ) / ((positives : ℚ) + (negatives : ℚ))

/-- Modelled from the spec: `overall_score` of the CulturalSignalDetector —
the unweighted mean of the five dimension ratio scores (§4.3). -/
def culture_overall (c₁ c₂ c₃ c₄ c₅ : ℕ × ℕ) : ℚ :=
  (ratio_score c₁.1 c₁.2 + ratio_score c₂.1 c₂.2 + ratio_score c₃.1 c₃.2 +
    ratio_score c₄.1 c₄.2 + ratio_score c₅.1 c₅.2) / 5

/-- Modelled from the spec: `risk_aversion_score` = 1 − overall_score (§4.3). -/
def risk_aversion_score (c₁ c₂ c₃ c₄ c₅ : ℕ × ℕ) : ℚ :=
  1 - culture_overall c₁ c₂ c₃ c₄ c₅

/-- Modelled from the spec: a group's resistance level — the share of its
stories matching at least one marker phrase (§4.4), 0 when the group has no
stories. -/
def resistance_level (stories : List BStory) (matchesMarker : BStory → Bool) : ℚ :=
  if stories.length = 0 then 0
  else ((stories.filter matchesMarker).length : ℚ) / (stories.length : ℚ)

/-- Modelled from the spec: frame-conflict severity — the smaller of the two
groups' story counts normalized by the total story count (§4.2), 0 when
there are no stories. -/
def conflict_severity (stories : List BStory) (g₁ g₂ : String) : ℚ :=
  if stories.length = 0 then 0
  else (min ((stories.filter (fun s => s.groups.contains g₁)).length : ℚ)
      ((stories.filter (fun s => s.groups.contains g₂)).length : ℚ)) /
    (stories.length : ℚ)

/-- Modelled from the spec: the orchestrator's composite score, the weighted
sum of the analyzer scores clamped into [0,1] (§4.6, §7). -/
def composite_score (weights scores : List ℚ) : ℚ := clamp01 (weightedSum weights scores)

theorem clamp01_mem_unit (x : ℚ) : 0 ≤ clamp01 x ∧ clamp01 x ≤ 1 :=
  ⟨le_max_left 0 _, max_le (by norm_num) (min_le_left 1 x)⟩

theorem ratio_score_mem_unit (p n : ℕ) : 0 ≤ ratio_score p n ∧ ratio_score p n ≤ 1 := by
  rw [ratio_score]
  split
  · norm_num
  · rename_i hne
    have hpos : (0 : ℚ) < (p : ℚ) + (n : ℚ) := by
      have : 0 < p + n := Nat.pos_of_ne_zero hne
      exact_mod_cast this
    constructor
    · positivity
    · rw [div_le_one hpos]
      have : (0 : ℚ) ≤ (n : ℚ) := by positivity
      linarith

theorem filter_length_ratio_le_one (stories : List BStory) (p : BStory → Bool)
    (hpos : (0 : ℚ) < (stories.length : ℚ)) :
    ((stories.filter p).length : ℚ) / (stories.length : ℚ) ≤ 1 := by
  rw [div_le_one hpos]
  exact_mod_cast List.length_filter_le p stories

theorem resistance_level_mem_unit (stories : List BStory) (p : BStory → Bool) :
    0 ≤ resistance_level stories p ∧ resistance_level stories p ≤ 1 := by
  rw [resistance_level]
  split
  · norm_num
  · rename_i hne
    have hpos : (0 : ℚ) < (stories.length : ℚ) := by
      exact_mod_cast Nat.pos_of_ne_zero hne
    exact ⟨by positivity, filter_length_ratio_le_one stories p hpos⟩

/-- C4: every score the modelled analyzers and orchestrator return lies in
[0,1] — defensive `clamp01` on every weighted-sum aggregate, ratio scores
with their neutral defaults, the vocabulary gap, the culture mean and risk
aversion, resistance levels, frame-conflict severities, the overall
readiness and the orchestrator composite. -/
theorem analyzer_scores_mem_unit_interval :
    (∀ x : ℚ, 0 ≤ clamp01 x ∧ clamp01 x ≤ 1) ∧
    (∀ p n : ℕ, 0 ≤ ratio_score p n ∧ ratio_score p n ≤ 1) ∧
    (∀ official actual : Finset String,
      0 ≤ compare_vocabulary official actual ∧ compare_vocabulary official actual ≤ 1) ∧
    (∀ c₁ c₂ c₃ c₄ c₅ : ℕ × ℕ,
      (0 ≤ culture_overall c₁ c₂ c₃ c₄ c₅ ∧ culture_overall c₁ c₂ c₃ c₄ c₅ ≤ 1) ∧
      (0 ≤ risk_aversion_score c₁ c₂ c₃ c₄ c₅ ∧ risk_aversion_score c₁ c₂ c₃ c₄ c₅ ≤ 1)) ∧
    (∀ (stories : List BStory) (p : BStory → Bool),
      0 ≤ resistance_level stories p ∧ resistance_level stories p ≤ 1) ∧
    (∀ (stories : List BStory) (g₁ g₂ : String),
      0 ≤ conflict_severity stories g₁ g₂ ∧ conflict_severity stories g₁ g₂ ≤ 1) ∧
    (∀ scores : List ℚ, 0 ≤ overall_readiness scores ∧ overall_readiness scores ≤ 1) ∧
    (∀ weights scores : List ℚ,
      0 ≤ composite_score weights scores ∧ composite_score weights scores ≤ 1) := by
  refine ⟨clamp01_mem_unit, ratio_score_mem_unit,
    fun o a => ⟨(compare_vocabulary_spec o a).2.2.1, (compare_vocabulary_spec o a).2.2.2⟩,
    ?_, resistance_level_mem_unit, ?_,
    fun scores => clamp01_mem_unit _, fun w s => clamp01_mem_unit _⟩
  · intro c₁ c₂ c₃ c₄ c₅
    obtain ⟨h₁0, h₁1⟩ := ratio_score_mem_unit c₁.1 c₁.2
    obtain ⟨h₂0, h₂1⟩ := ratio_score_mem_unit c₂.1 c₂.2
    obtain ⟨h₃0, h₃1⟩ := ratio_score_mem_unit c₃.1 c₃.2
    obtain ⟨h₄0, h₄1⟩ := ratio_score_mem_unit c₄.1 c₄.2
    obtain ⟨h₅0, h₅1⟩ := ratio_score_mem_unit c₅.1 c₅.2
    have hmean : 0 ≤ culture_overall c₁ c₂ c₃ c₄ c₅ ∧ culture_overall c₁ c₂ c₃ c₄ c₅ ≤ 1 := by
      rw [culture_overall]
      constructor <;> [positivity; linarith]
    exact ⟨hmean, by rw [risk_aversion_score]; constructor <;> linarith [hmean.1, hmean.2]⟩
  · intro stories g₁ g₂
    rw [conflict_severity]
    split
    · norm_num
    · rename_i hne
      have hpos : (0 : ℚ) < (stories.length : ℚ) := by
        exact_mod_cast Nat.pos_of_ne_zero hne
      constructor
      · have h₁ : (0 : ℚ) ≤ ((stories.filter (fun s => s.groups.contains g₁)).length : ℚ) := by
          positivity
        have h₂ : (0 : ℚ) ≤ ((stories.filter (fun s => s.groups.contains g₂)).length : ℚ) := by
          positivity
        exact div_nonneg (le_min h₁ h₂) (le_of_lt hpos)
      · rw [div_le_one hpos]
        exact le_trans (min_le_left _ _)
          (by exact_mod_cast List.length_filter_le (fun s => s.groups.contains g₁) stories)

/-! ## AnalysisOrchestrator: partial failure and weight renormalization -/

/-- One analyzer's section of the orchestrator report: a successful analysis
with its score, or a section marked failed with an error note. -/
inductive SectionReport : Type
  | success (score : ℚ) : SectionReport
  | failed (note : String) : SectionReport
deriving DecidableEq

/-- The orchestrator's overall report: one section per analyzer plus the
composite score. -/
structure OrchestratorReport where
  sections : List SectionReport
  composite : ℚ
deriving DecidableEq

/-- The weights of the analyzers that did not fail, in order: a failed
analyzer (a `none` result) drops its weight. -/
def okWeights (weights : List ℚ) (results : List (Option ℚ)) : List ℚ :=
  (weights.zip results).filterMap (fun wr => wr.2.map (fun _ => wr.1))

/-- Modelled from the spec: the proportional re-normalization of §7
AnalyzerFailure — each surviving weight is divided by the sum of the
surviving weights. -/
def renormalizedWeights (weights : List ℚ) (results : List (Option ℚ)) : List ℚ :=
  (okWeights weights results).map (fun w => w / (okWeights weights results).sum)

/-- Modelled from the spec: `run_comprehensive_analysis` at the orchestrator
boundary (§4.6, §7) — every analyzer error is caught, the failing section is
marked failed with an error note, and the composite is the weighted sum of
the surviving scores under the re-normalized weights, clamped into [0,1];
`ai_narrative_intelligence_agent.py` is not in the snapshot. -/
def run_comprehensive_analysis (weights : List ℚ) (results : List (Option ℚ)) :
    OrchestratorReport :=
  { sections := results.map (fun r =>
      match r with
      | some score => SectionReport.success score
      | none => SectionReport.failed "analyzer failed: upstream query error")
    composite := clamp01
      (((weights.zip results).filterMap
        (fun wr => wr.2.map (fun score => wr.1 / (okWeights weights results).sum * score))).sum) }

theorem okWeights_length : ∀ (weights : List ℚ) (results : List (Option ℚ)),
    weights.length = results.length →
    (okWeights weights results).length = (results.filter (fun r => r.isSome)).length := by
  intro weights
  induction weights with
  | nil =>
    intro results h
    cases results with
    | nil => rfl
    | cons r rs => cases h
  | cons w ws ih =>
    intro results h
    cases results with
    | nil => cases h
    | cons r rs =>
      cases r with
      | none => simpa [okWeights, List.filterMap] using ih rs (by simpa using h)
      | some s =>
        simpa [okWeights, List.filterMap] using ih rs (by simpa using h)

theorem filter_isSome_add_isNone (results : List (Option ℚ)) :
    (results.filter (fun r => r.isSome)).length +
      (results.filter (fun r => r.isNone)).length = results.length := by
  induction results with
  | nil => rfl
  | cons r rs ih =>
    cases r <;> simp [List.filter] <;> omega

theorem renormalizedWeights_sum (weights : List ℚ) (results : List (Option ℚ))
    (hpos : 0 < (okWeights weights results).sum) :
    (renormalizedWeights weights results).sum = 1 := by
  rw [renormalizedWeights]
  have hne : (okWeights weights results).sum ≠ 0 := ne_of_gt hpos
  calc ((okWeights weights results).map
        (fun w => w / (okWeights weights results).sum)).sum
      = ((okWeights weights results).map
        (fun w => w * ((okWeights weights results).sum)⁻¹)).sum := by
        simp only [div_eq_mul_inv]
    _ = ((okWeights weights results).map id).sum * ((okWeights weights results).sum)⁻¹ :=
        List.sum_map_mul_right (okWeights weights results) id _
    _ = 1 := by rw [List.map_id]; exact mul_inv_cancel₀ hne

/-- C5: when exactly one of the five analyzers fails with an upstream query
error, the orchestrator still returns a full five-section report, the failing
analyzer's section is marked failed with an error note, and the four
surviving weights, proportionally re-normalized, sum back to exactly 1 so
the composite stays defined. -/
theorem orchestrator_single_failure (weights : List ℚ) (results : List (Option ℚ))
    (hw : weights.length = 5) (hr : results.length = 5)
    (hone : (results.filter (fun r => r.isNone)).length = 1)
    (hpos : 0 < (okWeights weights results).sum) :
    (run_comprehensive_analysis weights results).sections.length = 5 ∧
    (∀ i : ℕ, results[i]? = some none →
      (run_comprehensive_analysis weights results).sections[i]? =
        some (SectionReport.failed "analyzer failed: upstream query error")) ∧
    (renormalizedWeights weights results).length = 4 ∧
    (renormalizedWeights weights results).sum = 1 := by
  refine ⟨?_, ?_, ?_, renormalizedWeights_sum weights results hpos⟩
  · simp [run_comprehensive_analysis, hr]
  · intro i hi
    show (results.map _)[i]? = _
    rw [List.getElem?_map, hi]
    rfl
  · rw [renormalizedWeights, List.length_map,
      okWeights_length weights results (hw.trans hr.symm)]
    have := filter_isSome_add_isNone results
    omega

/-- Witness for C5: five equal weights, the second analyzer failing. -/
theorem orchestrator_single_failure_witness :
    (run_comprehensive_analysis [1/5, 1/5, 1/5, 1/5, 1/5]
      [some (1/2), none, some (1/2), some (3/4), some 1]).sections.length = 5 ∧
    (renormalizedWeights [1/5, 1/5, 1/5, 1/5, 1/5]
      [some (1/2), none, some (1/2), some (3/4), some 1]).sum = 1 := by
  have hok : okWeights [1/5, 1/5, 1/5, 1/5, 1/5]
      [some (1/2), none, some (1/2), some (3/4), some 1] = [1/5, 1/5, 1/5, 1/5] := rfl
  have h := orchestrator_single_failure [1/5, 1/5, 1/5, 1/5, 1/5]
    [some (1/2), none, some (1/2), some (3/4), some 1]
    rfl rfl (by decide) (by rw [hok]; norm_num)
  exact ⟨h.1, h.2.2.2⟩

/-! ## Determinism of the analysis pipeline -/

/-- Modelled from the spec: the read-only data snapshot materialized per
analysis invocation (§3 lifecycle); all analyzer inputs come from it. -/
structure Snapshot where
  stories : List BStory
deriving DecidableEq

/-- The (timestamp, sentiment) series of a snapshot — the only data the trend
classification reads. -/
def sentimentSeries (snap : Snapshot) : List (ℕ × ℚ) :=
  snap.stories.map (fun s => (s.timestamp, s.sentiment))

/-- Mean of a list of rationals, 0 when empty. -/
def listMean (l : List ℚ) : ℚ := if l.length = 0 then 0 else l.sum / (l.length : ℚ)

/-- Modelled from the spec: the time-series trend classification of §4.5 —
sentiment-over-time buckets, splitting the series at the midpoint of the
observed time range and comparing the bucket means. -/
def trend_core (series : List (ℕ × ℚ)) : Trend :=
  let maxT := (series.map Prod.fst).foldr max 0
  let early := series.filter (fun p => decide (2 * p.1 ≤ maxT))
  let late := series.filter (fun p => decide (maxT < 2 * p.1))
  let earlyMean := listMean (early.map Prod.snd)
  let lateMean := listMean (late.map Prod.snd)
  if earlyMean < lateMean then Trend.positive
  else if lateMean < earlyMean then Trend.negative
  else Trend.flat

/-- The trend as the orchestrator derives it: a function of the snapshot's
timestamps and sentiments alone. -/
def trend_of (snap : Snapshot) : Trend := trend_core (sentimentSeries snap)

/-- Marker counts for cultural receptivity: stories with the experimentation
indicator set against those without. -/
def experimentationCounts (snap : Snapshot) : ℕ × ℕ :=
  ((snap.stories.filter (fun s => s.experimentation_indicator)).length,
   (snap.stories.filter (fun s => !s.experimentation_indicator)).length)

/-- Marker counts for trust: positive-sentiment stories against
negative-sentiment stories. -/
def trustCounts (snap : Snapshot) : ℕ × ℕ :=
  ((snap.stories.filter (fun s => decide (0 < s.sentiment))).length,
   (snap.stories.filter (fun s => decide (s.sentiment < 0))).length)

/-- Marker counts for learning orientation: success stories against warning
stories. -/
def learningCounts (snap : Snapshot) : ℕ × ℕ :=
  ((snap.stories.filter
      (fun s => decide (s.narrative_function = NarrativeFunction.success))).length,
   (snap.stories.filter
      (fun s => decide (s.narrative_function = NarrativeFunction.warning))).length)

/-- Marker counts for frame positivity: opportunity/partner framed stories
against threat/replacement framed stories. -/
def frameCounts (snap : Snapshot) : ℕ × ℕ :=
  ((snap.stories.filter (fun s => decide (s.agency_frame = AgencyFrame.opportunity ∨
      s.agency_frame = AgencyFrame.partner))).length,
   (snap.stories.filter (fun s => decide (s.agency_frame = AgencyFrame.threat ∨
      s.agency_frame = AgencyFrame.replacement))).length)

/-- The concept-term set of the official (vision) stories. -/
def officialTerms (snap : Snapshot) : Finset String :=
  (((snap.stories.filter
      (fun s => decide (s.narrative_function = NarrativeFunction.vision))).map
    (fun s => s.concepts_mentioned)).flatten).toFinset

/-- The concept-term set of the actual (non-vision) stories. -/
def actualTerms (snap : Snapshot) : Finset String :=
  (((snap.stories.filter
      (fun s => decide (s.narrative_function ≠ NarrativeFunction.vision))).map
    (fun s => s.concepts_mentioned)).flatten).toFinset

/-- Cultural receptivity score of a snapshot. -/
def cultural_receptivity (snap : Snapshot) : ℚ :=
  ratio_score (experimentationCounts snap).1 (experimentationCounts snap).2

/-- Trust foundation score of a snapshot. -/
def trust_foundation (snap : Snapshot) : ℚ :=
  ratio_score (trustCounts snap).1 (trustCounts snap).2

/-- The fixed-shape result of the orchestrated analysis. -/
structure ComprehensiveReport where
  vocabulary_gap : ℚ
  culture_score : ℚ
  risk_aversion : ℚ
  trust_score : ℚ
  readiness : ℚ
  forecast : Forecast
deriving DecidableEq

/-- Modelled from the spec: the orchestrated analysis as a pure function of
the data snapshot (§5 — synchronous, stateless, side-effect-free; §6 output
boundary). The wall-clock instant of the invocation is passed explicitly so
that independence from the clock is a stated property rather than an
assumption; the spec's §8 idempotence requires the output to depend on the
snapshot alone. -/
def run_analysis_at (snap : Snapshot) (_wall_clock : ℕ) : ComprehensiveReport :=
  { vocabulary_gap := compare_vocabulary (officialTerms snap) (actualTerms snap)
    culture_score := culture_overall (experimentationCounts snap) (trustCounts snap)
      (learningCounts snap) (frameCounts snap) (experimentationCounts snap)
    risk_aversion := risk_aversion_score (experimentationCounts snap) (trustCounts snap)
      (learningCounts snap) (frameCounts snap) (experimentationCounts snap)
    trust_score := trust_foundation snap
    readiness := overall_readiness
      [1 - compare_vocabulary (officialTerms snap) (actualTerms snap),
       cultural_receptivity snap, trust_foundation snap,
       ratio_score (learningCounts snap).1 (learningCounts snap).2,
       ratio_score (frameCounts snap).1 (frameCounts snap).2,
       ratio_score (experimentationCounts snap).1 (experimentationCounts snap).2]
    forecast := forecast_adoption_trajectory (trend_of snap)
      (cultural_receptivity snap) (trust_foundation snap) }

/-- C7: the analysis is deterministic — its output is a function of the
snapshot alone: two invocations at arbitrary (and arbitrarily different)
wall-clock instants over the same snapshot return identical reports, and the
trend input to forecasting is itself a function of the snapshot's
(timestamp, sentiment) series only. -/
theorem run_analysis_deterministic :
    (∀ (snap : Snapshot) (t₁ t₂ : ℕ), run_analysis_at snap t₁ = run_analysis_at snap t₂) ∧
    (∀ s₁ s₂ : Snapshot, sentimentSeries s₁ = sentimentSeries s₂ →
      trend_of s₁ = trend_of s₂) := by
  refine ⟨fun snap t₁ t₂ => rfl, fun s₁ s₂ h => ?_⟩
  rw [trend_of, trend_of, h]

/-- A sample story for the determinism witness. -/
def sampleStoryA : BStory :=
  { id := "s1"
    summary := "first telling"
    groups := ["eng"]
    sentiment := 1/2
    agency_frame := AgencyFrame.opportunity
    narrative_function := NarrativeFunction.success
    concepts_mentioned := ["ai"]
    experimentation_indicator := true
    timestamp := 1 }

/-- The same observation retold: different text, groups and framing, but the
same (timestamp, sentiment) pair. -/
def sampleStoryB : BStory :=
  { id := "s2"
    summary := "second telling"
    groups := []
    sentiment := 1/2
    agency_frame := AgencyFrame.threat
    narrative_function := NarrativeFunction.warning
    concepts_mentioned := []
    experimentation_indicator := false
    timestamp := 1 }

/-- Witness for C7: two snapshots that differ in story text but share the
(timestamp, sentiment) series get the same trend, and one snapshot analysed
at two different clock instants gets the same report. -/
theorem run_analysis_deterministic_witness :
    trend_of { stories := [sampleStoryA] } = trend_of { stories := [sampleStoryB] } ∧
    run_analysis_at { stories := [sampleStoryA] } 0 =
      run_analysis_at { stories := [sampleStoryA] } 99 :=
  ⟨run_analysis_deterministic.2 { stories := [sampleStoryA] } { stories := [sampleStoryB] } rfl,
   run_analysis_deterministic.1 { stories := [sampleStoryA] } 0 99⟩

end NarrativeRabbit
